import Mathlib

/-!
# Verification of the vidtalker real-time capture / playback core

Shallow embedding of the audio capture, encoding, transport-buffering and
mixed-playback pipeline of the repository, together with proofs of the
specified properties.

Sources embedded:
- `src/lib/audio-recorder.ts` (`arrayBufferToBase64`, `AudioRecorder`)
- `src/hooks/media/use-live-api.ts` (session coordinator wiring)
- `src/lib/state.ts` (settings store) and the sidebar pad-volume slider
- `lib/audio-streamer.ts` is referenced by the coordinator but its source is
  not present; it is modelled from the specification where needed.

Asynchronous operations (`getUserMedia`, `getDisplayMedia`) are embedded as
two explicit phases: a `Begin` step that installs the in-flight `starting`
promise, and a `Resolve` step that models the device acquisition settling
(with its outcome supplied as a parameter) and runs the executor
continuation followed by any callbacks queued on the promise.
-/

/- ## Frame codec: `arrayBufferToBase64` (src/lib/audio-recorder.ts:28) -/

/-- The base64 alphabet used by `window.btoa`. -/
def base64Chars : List Char :=
  "ABCDEFGHIJKLMNOPQRSTUVWXYZabcdefghijklmnopqrstuvwxyz0123456789+/".toList

/-- The base64 padding character. -/
def padChar : Char := ('=')

/-- Character of the base64 alphabet for a 6-bit value. -/
def b64c (n : Nat) : Char := base64Chars.getD n ('A')

/-- Index of a character in the base64 alphabet, `none` if absent. -/
def b64idx (c : Char) : Option Nat := base64Chars.findIdx? (fun x => x == c)

/-- Standard base64 encoding of a byte sequence, the semantics of
`window.btoa` applied to a binary string of the given byte values:
three bytes become four alphabet characters, a trailing group of one or two
bytes is padded with `=`. -/
def encodeB64 : List Nat → List Char
  | [] => []
  | [b0] => [b64c (b0 / 4), b64c (b0 % 4 * 16), padChar, padChar]
  | [b0, b1] =>
      [b64c (b0 / 4), b64c (b0 % 4 * 16 + b1 / 16), b64c (b1 % 16 * 4), padChar]
  | b0 :: b1 :: b2 :: rest =>
      b64c (b0 / 4) :: b64c (b0 % 4 * 16 + b1 / 16) ::
        b64c (b1 % 16 * 4 + b2 / 64) :: b64c (b2 % 64) :: encodeB64 rest

/-- Standard base64 decoding (the semantics of `window.atob`): groups of four
characters are mapped back through the alphabet, `=` padding terminates the
input; malformed input yields `none`. -/
def decodeB64 : List Char → Option (List Nat)
  | [] => some []
  | c0 :: c1 :: c2 :: c3 :: rest =>
      (b64idx c0).bind fun s0 =>
      (b64idx c1).bind fun s1 =>
      if c2 = padChar then
        if c3 = padChar ∧ rest = [] then some [s0 * 4 + s1 / 16] else none
      else
        (b64idx c2).bind fun s2 =>
        if c3 = padChar then
          if rest = [] then some [s0 * 4 + s1 / 16, s1 % 16 * 16 + s2 / 4]
          else none
        else
          (b64idx c3).bind fun s3 =>
          (decodeB64 rest).map fun bs =>
            (s0 * 4 + s1 / 16) :: (s1 % 16 * 16 + s2 / 4) ::
              (s2 % 4 * 64 + s3) :: bs
  | _ => none

set_option maxRecDepth 4096 in
/-- `String.fromCharCode` on a byte value below 256 produces a character whose
code is that byte, so `btoa` sees exactly the original byte values. -/
theorem charCode_roundtrip : ∀ b, b < 256 → (Char.ofNat b).toNat = b := by
  decide

/-- Embedding of `arrayBufferToBase64` (src/lib/audio-recorder.ts:28): each
byte is turned into the character with that code (`String.fromCharCode`) and
the resulting binary string is base64-encoded with `window.btoa`. -/
def arrayBufferToBase64 (bytes : List Nat) : List Char :=
  encodeB64 (bytes.map fun b => (Char.ofNat b).toNat)

/-- Modelled from the spec: `decodeFrame` does not appear among the source
files under src (the inbound decode happens outside the capture module);
§4.1 specifies it as the inverse of `encodeFrame` that fails with
`MalformedFrame` when the decoded byte length is not a whole number of
16-bit sample units. -/
def decodeFrame (cs : List Char) : Option (List Nat) :=
  match decodeB64 cs with
  | some bs => if bs.length % 2 = 0 then some bs else none
  | none => none

theorem b64idx_b64c : ∀ n, n < 64 → b64idx (b64c n) = some n := by decide

theorem b64c_ne_pad : ∀ n, n < 64 → b64c n ≠ padChar := by decide

/-- Base64 decoding inverts encoding on every byte sequence. -/
theorem decodeB64_encodeB64 :
    ∀ (l : List Nat), (∀ b ∈ l, b < 256) → decodeB64 (encodeB64 l) = some l
  | [] => fun _ => rfl
  | [b0] => fun h => by
      have hb0 : b0 < 256 := h b0 (by simp)
      simp only [encodeB64, decodeB64]
      rw [b64idx_b64c (b0 / 4) (by omega), b64idx_b64c (b0 % 4 * 16) (by omega)]
      simp only [Option.some_bind, and_self, if_true]
      have hv : b0 / 4 * 4 + b0 % 4 * 16 / 16 = b0 := by omega
      rw [hv]
  | [b0, b1] => fun h => by
      have hb0 : b0 < 256 := h b0 (by simp)
      have hb1 : b1 < 256 := h b1 (by simp)
      simp only [encodeB64, decodeB64]
      rw [b64idx_b64c (b0 / 4) (by omega),
        b64idx_b64c (b0 % 4 * 16 + b1 / 16) (by omega)]
      simp only [Option.some_bind]
      rw [if_neg (b64c_ne_pad (b1 % 16 * 4) (by omega)),
        b64idx_b64c (b1 % 16 * 4) (by omega)]
      simp only [Option.some_bind, if_true]
      have hv0 : b0 / 4 * 4 + (b0 % 4 * 16 + b1 / 16) / 16 = b0 := by omega
      have hv1 : (b0 % 4 * 16 + b1 / 16) % 16 * 16 + b1 % 16 * 4 / 4 = b1 := by
        omega
      rw [hv0, hv1]
  | [b0, b1, b2] => fun h => by
      have hb0 : b0 < 256 := h b0 (by simp)
      have hb1 : b1 < 256 := h b1 (by simp)
      have hb2 : b2 < 256 := h b2 (by simp)
      simp only [encodeB64, decodeB64]
      rw [b64idx_b64c (b0 / 4) (by omega),
        b64idx_b64c (b0 % 4 * 16 + b1 / 16) (by omega)]
      simp only [Option.some_bind]
      rw [if_neg (b64c_ne_pad (b1 % 16 * 4 + b2 / 64) (by omega)),
        b64idx_b64c (b1 % 16 * 4 + b2 / 64) (by omega)]
      simp only [Option.some_bind]
      rw [if_neg (b64c_ne_pad (b2 % 64) (by omega)),
        b64idx_b64c (b2 % 64) (by omega)]
      simp only [Option.some_bind, decodeB64, Option.map_some']
      have hv0 : b0 / 4 * 4 + (b0 % 4 * 16 + b1 / 16) / 16 = b0 := by omega
      have hv1 : (b0 % 4 * 16 + b1 / 16) % 16 * 16 +
          (b1 % 16 * 4 + b2 / 64) / 4 = b1 := by omega
      have hv2 : (b1 % 16 * 4 + b2 / 64) % 4 * 64 + b2 % 64 = b2 := by omega
      rw [hv0, hv1, hv2]
  | b0 :: b1 :: b2 :: b3 :: rest => fun h => by
      have hb0 : b0 < 256 := h b0 (by simp)
      have hb1 : b1 < 256 := h b1 (by simp)
      have hb2 : b2 < 256 := h b2 (by simp)
      have ih := decodeB64_encodeB64 (b3 :: rest)
        (fun b hb => h b (by simp [List.mem_cons] at hb ⊢; tauto))
      simp only [encodeB64]
      simp only [decodeB64]
      rw [b64idx_b64c (b0 / 4) (by omega),
        b64idx_b64c (b0 % 4 * 16 + b1 / 16) (by omega)]
      simp only [Option.some_bind]
      rw [if_neg (b64c_ne_pad (b1 % 16 * 4 + b2 / 64) (by omega)),
        b64idx_b64c (b1 % 16 * 4 + b2 / 64) (by omega)]
      simp only [Option.some_bind]
      rw [if_neg (b64c_ne_pad (b2 % 64) (by omega)),
        b64idx_b64c (b2 % 64) (by omega)]
      simp only [Option.some_bind]
      rw [ih]
      simp only [Option.map_some']
      have hv0 : b0 / 4 * 4 + (b0 % 4 * 16 + b1 / 16) / 16 = b0 := by omega
      have hv1 : (b0 % 4 * 16 + b1 / 16) % 16 * 16 +
          (b1 % 16 * 4 + b2 / 64) / 4 = b1 := by omega
      have hv2 : (b1 % 16 * 4 + b2 / 64) % 4 * 64 + b2 % 64 = b2 := by omega
      rw [hv0, hv1, hv2]

/-- The byte-to-character-code conversion of `String.fromCharCode` is the
identity on byte sequences. -/
theorem map_charCode : ∀ (l : List Nat), (∀ b ∈ l, b < 256) →
    l.map (fun b => (Char.ofNat b).toNat) = l
  | [] => fun _ => rfl
  | a :: t => fun hl => by
      simp only [List.map_cons]
      rw [charCode_roundtrip a (hl a (by simp)),
        map_charCode t (fun b hb => hl b (by simp [hb]))]

/-- C1: the frame codec round-trips: for every valid PCM16 buffer (an
even-length sequence of byte values), decoding the text-safe encoded form
produced by `arrayBufferToBase64` yields the original buffer back. -/
theorem frame_roundtrip (B : List Nat) (hB : ∀ b ∈ B, b < 256)
    (heven : B.length % 2 = 0) :
    decodeFrame (arrayBufferToBase64 B) = some B := by
  rw [arrayBufferToBase64, map_charCode B hB]
  unfold decodeFrame
  rw [decodeB64_encodeB64 B hB]
  exact if_pos heven

/-- Witness for C1 at the concrete PCM16 buffer `[1, 255, 0, 128]`. -/
theorem frame_roundtrip_witness :
    (∀ b ∈ [1, 255, 0, 128], b < 256) ∧ [1, 255, 0, 128].length % 2 = 0 ∧
      decodeFrame (arrayBufferToBase64 [1, 255, 0, 128]) =
        some [1, 255, 0, 128] :=
  ⟨by decide, by decide,
    frame_roundtrip [1, 255, 0, 128] (by decide) (by decide)⟩

/- ## Capture source: `AudioRecorder` (src/lib/audio-recorder.ts:39) -/

/-- A `MediaStream` as returned by `getUserMedia` / `getDisplayMedia`: the
handles of its audio tracks and of its video tracks. -/
structure MediaStream where
  audioTracks : List String
  videoTracks : List String
deriving DecidableEq

/-- All tracks of the stream held in an optional stream field, in the order
`getTracks()` returns them. -/
def tracksOf : Option MediaStream → List String
  | none => []
  | some s => s.audioTracks ++ s.videoTracks

/-- The `this.starting` field of `AudioRecorder`: `idle` when it is `null`,
`pending q` while the acquisition promise is unsettled with `q` callbacks
queued on it via `.then`, and `settledHeld` when the promise has resolved but
is still stored in the field (the acquisition-failure path never clears it). -/
inductive StartingState
  | idle
  | pending (queued : Nat)
  | settledHeld
deriving DecidableEq

/-- State of one `AudioRecorder` instance. Worklet nodes and the source node
are tracked as existence flags; `stoppedTracks` records every media track on
which `.stop()` has been called (released device handles). -/
structure AudioRecorder where
  stream : Option MediaStream
  source : Bool
  sourceConnected : Bool
  recording : Bool
  recordingWorklet : Bool
  vuWorklet : Bool
  videoTrack : Option String
  captureCanvas : Bool
  captureCtx : Bool
  canvasOffscreen : Bool
  starting : StartingState
  stoppedTracks : List String
deriving DecidableEq

/-- A freshly constructed `AudioRecorder` (constructor at line 61). -/
def AudioRecorder.fresh : AudioRecorder :=
  ⟨none, false, false, false, false, false, none, false, false, false,
    StartingState.idle, []⟩

/-- The `handleStop` closure of `AudioRecorder.stop`
(src/lib/audio-recorder.ts:227): disconnects the source node, calls `.stop()`
on every track of the stream, and clears the stream, worklet and video-track
fields. -/
def AudioRecorder.handleStop (r : AudioRecorder) : AudioRecorder :=
  { r with
    sourceConnected := false,
    stream := none,
    recordingWorklet := false,
    vuWorklet := false,
    videoTrack := none,
    stoppedTracks := r.stoppedTracks ++ tracksOf r.stream }

/-- Run the callbacks queued on the starting promise (each one is
`handleStop`; they run as microtasks once the promise resolves). -/
def runQueued : Nat → AudioRecorder → AudioRecorder
  | 0, r => r
  | n + 1, r => runQueued n (AudioRecorder.handleStop r)

/-- `AudioRecorder.stop` (src/lib/audio-recorder.ts:226): if a starting
promise is in flight, `handleStop` is queued on it with `.then` and nothing
is released yet; if the field still holds a settled promise, the queued
`handleStop` runs as an immediate microtask; otherwise `handleStop` runs
synchronously. -/
def AudioRecorder.stop (r : AudioRecorder) : AudioRecorder :=
  match r.starting with
  | StartingState.pending q => { r with starting := StartingState.pending (q + 1) }
  | StartingState.settledHeld => AudioRecorder.handleStop r
  | StartingState.idle => AudioRecorder.handleStop r

/-- `AudioRecorder.initializeAudioGraph` (src/lib/audio-recorder.ts:185):
when the stream carries at least one audio track, a media-stream source node
and the recording and VU worklet nodes are created and connected; in every
case (also with no audio track) the `recording` flag is set. -/
def AudioRecorder.initializeAudioGraph (r : AudioRecorder) : AudioRecorder :=
  match r.stream with
  | none => r
  | some s =>
      if s.audioTracks.isEmpty then
        { r with recording := true }
      else
        { r with
          source := true,
          sourceConnected := true,
          recordingWorklet := true,
          vuWorklet := true,
          recording := true }

/-- First phase of `AudioRecorder.start` (src/lib/audio-recorder.ts:63): if
`navigator.mediaDevices.getUserMedia` is unavailable the method returns at
once; otherwise the executor runs up to the `getUserMedia` await and the
in-flight promise is stored in `this.starting`. -/
def AudioRecorder.startBegin (supported : Bool) (r : AudioRecorder) :
    AudioRecorder :=
  if supported then { r with starting := StartingState.pending 0 } else r

/-- Second phase of `AudioRecorder.start`: `getUserMedia` settles with
`outcome` (`none` models denial or absence of a device, reaching the catch
branch, which resolves the promise without clearing `this.starting`; `some s`
models success, after which the audio graph is initialised, the promise is
resolved and `this.starting` is cleared).  The promise is resolved — never
rejected — on both paths; its queued callbacks run afterwards. -/
def AudioRecorder.startResolve (outcome : Option MediaStream)
    (r : AudioRecorder) : AudioRecorder :=
  match r.starting with
  | StartingState.pending q =>
      match outcome with
      | none => runQueued q { r with starting := StartingState.settledHeld }
      | some s =>
          let r1 := { r with stream := some s }
          let r2 := AudioRecorder.initializeAudioGraph r1
          runQueued q { r2 with starting := StartingState.idle }
  | _ => r

/-- First phase of `AudioRecorder.startScreenCapture`
(src/lib/audio-recorder.ts:85): unsupported `getDisplayMedia` returns at
once, otherwise the in-flight promise is stored. -/
def AudioRecorder.startScreenCaptureBegin (supported : Bool)
    (r : AudioRecorder) : AudioRecorder :=
  if supported then { r with starting := StartingState.pending 0 } else r

/-- Second phase of `AudioRecorder.startScreenCapture`: on success the video
track (when present) and the raster target are installed — an
`OffscreenCanvas` when available, a DOM canvas otherwise — and the audio
graph is initialised; on denial the catch branch resolves without clearing
`this.starting`. -/
def AudioRecorder.startScreenCaptureResolve (outcome : Option MediaStream)
    (offscreenAvailable : Bool) (r : AudioRecorder) : AudioRecorder :=
  match r.starting with
  | StartingState.pending q =>
      match outcome with
      | none => runQueued q { r with starting := StartingState.settledHeld }
      | some s =>
          let r1 := { r with stream := some s }
          let r2 :=
            match s.videoTracks with
            | [] => r1
            | v :: _ =>
                { r1 with
                  videoTrack := some v,
                  captureCanvas := true,
                  captureCtx := true,
                  canvasOffscreen := offscreenAvailable }
          let r3 := AudioRecorder.initializeAudioGraph r2
          runQueued q { r3 with starting := StartingState.idle }
  | _ => r

/-- Events the recorder can emit to its subscribers. -/
inductive REvent
  | data
  | volume
deriving DecidableEq

/-- The events one audio-processing block can emit: the `data` event is
emitted from the recording worklet's message handler and the `volume` event
from the VU worklet's message handler (src/lib/audio-recorder.ts:202-218), so
each requires its worklet node to exist. -/
def AudioRecorder.tickEmits (r : AudioRecorder) : List REvent :=
  (if r.recordingWorklet then [REvent.data] else []) ++
    (if r.vuWorklet then [REvent.volume] else [])

/-- The only way `captureFrame` can surface an error: the promise returned by
`blobToBase64` is handed back from inside the `try` block without `await`
(src/lib/audio-recorder.ts:162), so a `FileReader` failure rejects the
outer promise past the catch. -/
inductive FrameErr
  | readerError
deriving DecidableEq

/-- Environment of one `captureFrame` call: availability of the experimental
`ImageCapture` API, whether `grabFrame`/`drawImage` succeed, whether the
JPEG conversion (`convertToBlob` / `toDataURL`) succeeds, whether the
`FileReader` read succeeds, and the base64 JPEG payload produced. -/
structure FrameEnv where
  imageCaptureAvailable : Bool
  grabOk : Bool
  convertOk : Bool
  readerOk : Bool
  jpegBase64 : String
deriving DecidableEq

/-- `AudioRecorder.blobToBase64` (src/lib/audio-recorder.ts:173): resolves
with the base64 payload of the data URL, or rejects when the `FileReader`
signals an error (`reader.onerror = reject`). -/
def AudioRecorder.blobToBase64 (readerOk : Bool) (payload : String) :
    Except FrameErr String :=
  if readerOk then Except.ok payload else Except.error FrameErr.readerError

/-- `AudioRecorder.captureFrame` (src/lib/audio-recorder.ts:143): `none`
without an active video track / raster target; inside the `try`, the
`ImageCapture` grab and the JPEG conversion are attempted and any exception
is caught, yielding `none`.  In the `OffscreenCanvas` branch the
`blobToBase64` promise is returned without `await`, so its rejection
propagates to the caller instead of being caught. -/
def AudioRecorder.captureFrame (r : AudioRecorder) (env : FrameEnv) :
    Except FrameErr (Option String) :=
  if r.videoTrack.isNone || !r.captureCtx || !r.captureCanvas then
    Except.ok none
  else if env.imageCaptureAvailable then
    if env.grabOk then
      if r.canvasOffscreen then
        if env.convertOk then
          match AudioRecorder.blobToBase64 env.readerOk env.jpegBase64 with
          | Except.ok s => Except.ok (some s)
          | Except.error e => Except.error e
        else Except.ok none
      else
        if env.convertOk then Except.ok (some env.jpegBase64)
        else Except.ok none
    else Except.ok none
  else Except.ok none

/-- C2: stopping while a `start()` or `startScreenCapture()` is in flight is
safe: the queued `handleStop` waits for the starting promise to settle
(nothing is released at the moment of the call, the callback is queued), and
once it settles every track of the acquired stream has been stopped and the
stream, worklet and video-track handles are all released — for every
acquisition outcome. -/
theorem stop_during_start_releases (o : Option MediaStream) (off : Bool) :
    (AudioRecorder.stop
        (AudioRecorder.startBegin true AudioRecorder.fresh)).stoppedTracks =
      [] ∧
    (AudioRecorder.stop
        (AudioRecorder.startBegin true AudioRecorder.fresh)).starting =
      StartingState.pending 1 ∧
    (let rm := AudioRecorder.startResolve o
        (AudioRecorder.stop (AudioRecorder.startBegin true AudioRecorder.fresh))
     rm.stream = none ∧ rm.recordingWorklet = false ∧ rm.vuWorklet = false ∧
       rm.videoTrack = none ∧ rm.sourceConnected = false ∧
       rm.stoppedTracks = tracksOf o) ∧
    (let rs := AudioRecorder.startScreenCaptureResolve o off
        (AudioRecorder.stop
          (AudioRecorder.startScreenCaptureBegin true AudioRecorder.fresh))
     rs.stream = none ∧ rs.recordingWorklet = false ∧ rs.vuWorklet = false ∧
       rs.videoTrack = none ∧ rs.sourceConnected = false ∧
       rs.stoppedTracks = tracksOf o) := by
  cases o with
  | none =>
      simp [AudioRecorder.startBegin, AudioRecorder.startScreenCaptureBegin,
        AudioRecorder.stop, AudioRecorder.startResolve,
        AudioRecorder.startScreenCaptureResolve, AudioRecorder.fresh,
        runQueued, AudioRecorder.handleStop, tracksOf]
  | some s =>
      cases s with
      | mk a v =>
          cases v <;> cases a <;>
            simp [AudioRecorder.startBegin,
              AudioRecorder.startScreenCaptureBegin, AudioRecorder.stop,
              AudioRecorder.startResolve,
              AudioRecorder.startScreenCaptureResolve, AudioRecorder.fresh,
              runQueued, AudioRecorder.handleStop, tracksOf,
              AudioRecorder.initializeAudioGraph]

/-- Witness for C2 at a concrete display stream with one audio and one video
track. -/
theorem stop_during_start_releases_witness :
    (AudioRecorder.startScreenCaptureResolve
        (some ⟨["tab-audio"], ["tab-video"]⟩) true
        (AudioRecorder.stop
          (AudioRecorder.startScreenCaptureBegin true
            AudioRecorder.fresh))).stoppedTracks =
      ["tab-audio", "tab-video"] :=
  (stop_during_start_releases (some ⟨["tab-audio"], ["tab-video"]⟩)
      true).2.2.2.2.2.2.2.2

/-- C3: a microphone start with access denied (or no device) resolves — the
executor reaches the catch branch and calls `resolve`, never `reject` — and
leaves the recorder in a no-capture state: no source node, no worklet nodes,
`recording` still false, and no `data` or `volume` event can ever be emitted;
likewise when `mediaDevices` is entirely unavailable the method returns at
once and nothing is emitted. -/
theorem mic_denied_degrades :
    (let r := AudioRecorder.startResolve none
        (AudioRecorder.startBegin true AudioRecorder.fresh)
     r.starting = StartingState.settledHeld ∧ r.recordingWorklet = false ∧
       r.vuWorklet = false ∧ r.source = false ∧ r.recording = false ∧
       r.stream = none ∧ AudioRecorder.tickEmits r = []) ∧
    AudioRecorder.tickEmits (AudioRecorder.startBegin false
      AudioRecorder.fresh) = [] := by
  decide

/-- C4 (code deviation): with an active video track on an `OffscreenCanvas`
raster target, a successful grab and conversion followed by a failing
`FileReader` read makes `captureFrame` reject with the reader error instead
of resolving with `null`: the `blobToBase64` promise is returned from inside
the `try` without `await`, so its rejection escapes the catch. -/
theorem captureFrame_rejects_on_reader_failure :
    AudioRecorder.captureFrame
      (AudioRecorder.startScreenCaptureResolve
        (some ⟨["tab-audio"], ["tab-video"]⟩) true
        (AudioRecorder.startScreenCaptureBegin true AudioRecorder.fresh))
      ⟨true, true, true, false, "ZmZm"⟩ =
    Except.error FrameErr.readerError := by
  rfl

/-- C9: a recorder whose capture was begun via `start()` (microphone mode)
never yields a video frame sample: `start` never installs a video track, and
`captureFrame` answers `null` whenever no video track is active — for every
support flag, every acquisition outcome and every frame environment. -/
theorem mic_captureFrame_null (sup : Bool) (o : Option MediaStream)
    (env : FrameEnv) :
    AudioRecorder.captureFrame
      (AudioRecorder.startResolve o (AudioRecorder.startBegin sup
        AudioRecorder.fresh)) env =
    Except.ok none := by
  cases sup <;> cases o <;>
    simp [AudioRecorder.startBegin, AudioRecorder.startResolve,
      AudioRecorder.fresh, AudioRecorder.captureFrame, runQueued,
      AudioRecorder.initializeAudioGraph]
  split <;> simp [AudioRecorder.captureFrame]

/-- C10: when the acquired display stream carries no audio track, the audio
graph builds no source node and no worklet nodes, so the recorder can emit
neither `data` nor `volume` events, yet its `recording` flag is still set to
true — for every list of video tracks and either canvas kind. -/
theorem no_audio_track_silent_recording (vts : List String) (off : Bool) :
    (let r := AudioRecorder.startScreenCaptureResolve (some ⟨[], vts⟩) off
        (AudioRecorder.startScreenCaptureBegin true AudioRecorder.fresh)
     r.source = false ∧ r.recordingWorklet = false ∧ r.vuWorklet = false ∧
       AudioRecorder.tickEmits r = [] ∧ r.recording = true) := by
  cases vts <;>
    simp [AudioRecorder.startScreenCaptureBegin,
      AudioRecorder.startScreenCaptureResolve, AudioRecorder.fresh,
      runQueued, AudioRecorder.initializeAudioGraph, AudioRecorder.tickEmits]

/- ## Playback pipeline and session coordinator
(src/hooks/media/use-live-api.ts; the `AudioStreamer` class of
`lib/audio-streamer.ts` is not among the source files and is modelled from
the specification) -/

/-- A frame sitting in the playback queue with its scheduled start time. -/
structure ScheduledFrame where
  bytes : List Nat
  startTime : ℚ
deriving DecidableEq

/-- Modelled from the spec: the `AudioStreamer` playback pipeline of
`lib/audio-streamer.ts` is not among the source files under src; §4.4
describes its state: a master gain stage, the ordered queue of
not-yet-rendered frames keyed by a monotonically increasing next scheduled
start time, an independently loopable ambient pad with its own gain, and a
resumable output context. -/
structure AudioStreamer where
  gainValue : ℚ
  scheduled : List ScheduledFrame
  nextStartTime : ℚ
  padPlaying : Bool
  padGain : ℚ
  contextRunning : Bool
deriving DecidableEq

/-- The pad-volume cap of §4.4: pad volume is a fraction of full scale with a
documented maximum of 0.5; requested values are clamped into [0, 0.5]. -/
def clampPad (v : ℚ) : ℚ := max 0 (min v (1 / 2))

/-- Modelled from the spec (§4.4 `enqueue` and underrun behavior): a frame is
scheduled to start when the previous frame ends, or at the current time after
an underrun — `max now nextStartTime` — and the clock advances by the frame's
duration (16 kHz mono PCM16: two bytes per sample). -/
def AudioStreamer.addPCM16 (now : ℚ) (bytes : List Nat) (s : AudioStreamer) :
    AudioStreamer :=
  let start := max now s.nextStartTime
  { s with
    scheduled := s.scheduled ++ [⟨bytes, start⟩],
    nextStartTime := start + (bytes.length : ℚ) / 32000 }

/-- Modelled from the spec (§4.4 interruption / `flushAndStop`): immediately
cancels every not-yet-rendered scheduled frame and resets the scheduling
clock; the pad loop and gains are independent and untouched. -/
def AudioStreamer.stop (s : AudioStreamer) : AudioStreamer :=
  { s with scheduled := [], nextStartTime := 0 }

/-- Modelled from the spec (§4.4 ambient pad): starts (or restarts) the
single pad loop at the requested volume, clamped to the documented cap. -/
def AudioStreamer.startPad (v : ℚ) (s : AudioStreamer) : AudioStreamer :=
  { s with padPlaying := true, padGain := clampPad v }

/-- Modelled from the spec (§4.4 ambient pad): stops the pad loop. -/
def AudioStreamer.stopPad (s : AudioStreamer) : AudioStreamer :=
  { s with padPlaying := false }

/-- Modelled from the spec (§4.4 ambient pad / §8 pad bounds): live pad
volume change, clamped into [0, 0.5]. -/
def AudioStreamer.setPadVolume (v : ℚ) (s : AudioStreamer) : AudioStreamer :=
  { s with padGain := clampPad v }

/-- Modelled from the spec (§4.4 resume): idempotent resumption of a
suspended output context. -/
def AudioStreamer.resume (s : AudioStreamer) : AudioStreamer :=
  { s with contextRunning := true }

/-- The pad-relevant settings of the `useSettings` store
(src/lib/state.ts:42). -/
structure Settings where
  backgroundPadEnabled : Bool
  backgroundPadVolume : ℚ
deriving DecidableEq

/-- `setBackgroundPadVolume` (src/lib/state.ts:85): stores the requested
volume unchanged. -/
def setBackgroundPadVolume (v : ℚ) (st : Settings) : Settings :=
  { st with backgroundPadVolume := v }

/-- The pad-volume slider of the sidebar (src/unnamed/part_000:191-199): an
HTML range input with `min="0"`, `max="0.5"`, whose emitted value the
browser keeps inside the attribute range. -/
def sidebarPadSlider (v : ℚ) : ℚ := max 0 (min v (1 / 2))

/-- State of the `useLiveApi` coordinator (src/hooks/media/use-live-api.ts):
the connection flag of the live client, the React `connected` state, the
playback streamer, every `AudioRecorder` created so far, and
`audioRecorderRef.current` as an index into that list. -/
structure LiveApi where
  clientConnected : Bool
  connected : Bool
  streamer : AudioStreamer
  recorders : List AudioRecorder
  currentRecorder : Option Nat
deriving DecidableEq

/-- Initial coordinator state once the output context exists
(src/hooks/media/use-live-api.ts:62-86, with volume enabled and the pad
disabled by default): unit master gain, empty queue, no recorder. -/
def LiveApi.init : LiveApi :=
  ⟨false, false, ⟨1, [], 0, false, 0, false⟩, [], none⟩

/-- The `interrupted` handler (src/hooks/media/use-live-api.ts:121-136):
`client.on('interrupted', stopAudioStreamer)` stops/flushes the playback
streamer. -/
def LiveApi.handleInterrupted (la : LiveApi) : LiveApi :=
  { la with streamer := AudioStreamer.stop la.streamer }

/-- The `audio` handler (src/hooks/media/use-live-api.ts:127-131): inbound
PCM16 buffers are pushed into the playback streamer. -/
def LiveApi.handleAudio (now : ℚ) (bytes : List Nat) (la : LiveApi) :
    LiveApi :=
  { la with streamer := AudioStreamer.addPCM16 now bytes la.streamer }

/-- The streamer preparation shared by both connect paths
(src/hooks/media/use-live-api.ts:194-203 and 213-220): resume the output
context and restart the pad when it is enabled in the settings. -/
def resumeAndPad (st : Settings) (s : AudioStreamer) : AudioStreamer :=
  if st.backgroundPadEnabled then
    AudioStreamer.startPad st.backgroundPadVolume (AudioStreamer.resume s)
  else AudioStreamer.resume s

/-- The recorder produced by `new AudioRecorder()` followed by
`await recorder.startScreenCapture()` settling with `outcome`. -/
def screenRecorderAfterStart (outcome : Option MediaStream) (off : Bool) :
    AudioRecorder :=
  AudioRecorder.startScreenCaptureResolve outcome off
    (AudioRecorder.startScreenCaptureBegin true AudioRecorder.fresh)

/-- `connectWithScreenAudio` (src/hooks/media/use-live-api.ts:209-237):
disconnects the client, resumes the streamer (restarting the pad when
enabled), creates a brand-new `AudioRecorder` and overwrites
`audioRecorderRef.current` with it, starts screen capture on it, and
connects the client.  The previously referenced recorder is not stopped. -/
def connectWithScreenAudio (st : Settings) (outcome : Option MediaStream)
    (off : Bool) (la : LiveApi) : LiveApi :=
  let la1 := { la with clientConnected := false }
  let la2 := { la1 with streamer := resumeAndPad st la1.streamer }
  let la3 := { la2 with
    recorders := la2.recorders ++ [screenRecorderAfterStart outcome off],
    currentRecorder := some la2.recorders.length }
  { la3 with clientConnected := true }

/-- Apply `AudioRecorder.stop` to the recorder at the given index. -/
def stopAt : Nat → List AudioRecorder → List AudioRecorder
  | _, [] => []
  | 0, r :: rs => AudioRecorder.stop r :: rs
  | n + 1, r :: rs => r :: stopAt n rs

/-- `disconnect` (src/hooks/media/use-live-api.ts:239-246): disconnects the
client, stops and clears the referenced audio recorder if any, and resets the
React `connected` flag.  The streamer is not touched. -/
def LiveApi.disconnect (la : LiveApi) : LiveApi :=
  let la1 := { la with clientConnected := false }
  let la2 :=
    match la1.currentRecorder with
    | some i =>
        { la1 with
          recorders := stopAt i la1.recorders
          currentRecorder := none }
    | none => la1
  { la2 with connected := false }

/-- C5 (counterexample): invoking `connectWithScreenAudio` twice in a row —
the second time with the first capture session still active — leaves the
first recorder's stream handle held and none of its tracks stopped, while
the reference already points at the new session: the previous session is not
torn down, contradicting the claimed supersession. -/
theorem connectWithScreenAudio_no_teardown_counterexample :
    (let c2 := connectWithScreenAudio ⟨false, 0⟩ (some ⟨["a2"], ["v2"]⟩) true
        (connectWithScreenAudio ⟨false, 0⟩ (some ⟨["a1"], ["v1"]⟩) true
          LiveApi.init)
     (c2.recorders.getD 0 AudioRecorder.fresh).stoppedTracks = [] ∧
       (c2.recorders.getD 0 AudioRecorder.fresh).stream =
         some ⟨["a1"], ["v1"]⟩ ∧
       c2.currentRecorder = some 1) := by
  decide

/-- C5 (amended): `connectWithScreenAudio` disconnects the live client and
replaces `audioRecorderRef.current` with a freshly started screen-capture
recorder before reconnecting, but it does not stop or release the previously
active recorder: every earlier recorder is left exactly as it was. -/
theorem connectWithScreenAudio_replaces_reference (st : Settings)
    (o : Option MediaStream) (off : Bool) (la : LiveApi) :
    (connectWithScreenAudio st o off la).recorders =
      la.recorders ++ [screenRecorderAfterStart o off] ∧
    (connectWithScreenAudio st o off la).currentRecorder =
      some la.recorders.length ∧
    (connectWithScreenAudio st o off la).clientConnected = true :=
  ⟨rfl, rfl, rfl⟩

/-- C6: on an `interrupted` signal the coordinator stops the playback
streamer, which flushes every not-yet-rendered scheduled frame and resets
the scheduling clock; a frame enqueued afterwards is scheduled from the
current time (`max now 0`), not chained to any stale scheduling state. -/
theorem interrupted_flushes_playback (la : LiveApi) (now : ℚ)
    (bytes : List Nat) :
    (LiveApi.handleInterrupted la).streamer.scheduled = [] ∧
    (LiveApi.handleInterrupted la).streamer.nextStartTime = 0 ∧
    (LiveApi.handleAudio now bytes
        (LiveApi.handleInterrupted la)).streamer.scheduled =
      [⟨bytes, max now 0⟩] := by
  refine ⟨rfl, rfl, ?_⟩
  simp [LiveApi.handleAudio, LiveApi.handleInterrupted,
    AudioStreamer.addPCM16, AudioStreamer.stop]

/-- C7: `disconnect` tears down only the capture side: the referenced audio
recorder is stopped (via `stopAt`) and the reference cleared, the React
`connected` flag reset — while the playback streamer (gain, pad state and
scheduling included) is left exactly as it was. -/
theorem disconnect_leaves_playback (la : LiveApi) :
    (LiveApi.disconnect la).streamer = la.streamer ∧
    (LiveApi.disconnect la).currentRecorder = none ∧
    (LiveApi.disconnect la).connected = false ∧
    (LiveApi.disconnect la).recorders =
      (match la.currentRecorder with
        | some i => stopAt i la.recorders
        | none => la.recorders) := by
  unfold LiveApi.disconnect
  cases h : la.currentRecorder <;> simp [h]

/-- C8: every requested pad volume leads to an effective pad gain inside
[0, 0.5]: through the sidebar slider (bounded by its range attributes), the
settings store and the streamer's clamp, and equally for direct `startPad` /
`setPadVolume` requests, the pad's contribution never exceeds half of full
scale. -/
theorem pad_volume_bounded (v : ℚ) (s : AudioStreamer) (st : Settings) :
    (let g := (AudioStreamer.setPadVolume
        (setBackgroundPadVolume (sidebarPadSlider v) st).backgroundPadVolume
        s).padGain
     0 ≤ g ∧ g ≤ 1 / 2) ∧
    (0 ≤ (AudioStreamer.startPad v s).padGain ∧
      (AudioStreamer.startPad v s).padGain ≤ 1 / 2) ∧
    (0 ≤ (AudioStreamer.setPadVolume v s).padGain ∧
      (AudioStreamer.setPadVolume v s).padGain ≤ 1 / 2) := by
  have h0 : ∀ w : ℚ, 0 ≤ clampPad w := fun w => le_max_left 0 _
  have h1 : ∀ w : ℚ, clampPad w ≤ 1 / 2 :=
    fun w => max_le (by norm_num) (min_le_right _ _)
  exact ⟨⟨h0 _, h1 _⟩, ⟨h0 _, h1 _⟩, ⟨h0 _, h1 _⟩⟩
